import Mathlib

/-!
Shallow embedding of the extraction-and-enrichment pipeline of
`src/scrapers/makemytrip_scraper.py` (class `TourPulseAIScraper`), together
with theorems settling the frozen claims about it.

Conventions of the embedding:
* Python strings are Lean `String`s; the character-level helpers below work on
  `String.data` with structural recursion so that every definition evaluates
  inside the kernel.  The embedding covers the ASCII fragment of Python's
  `str.lower` / `str.split` / `\d`, which is the fragment the scraped page
  text and the claims exercise.
* Python floats are modelled as exact rationals (`ℚ`); the claims under
  consideration are about exact values, signs and bounds that are unaffected
  by rounding.
* Selenium calls are modelled by an explicit browser-window state and by
  per-attempt environment records describing what the page offered; an
  exception oracle says at which statement of the detail-page navigation an
  exception is raised, mirroring the `try`/`except` structure of the source.
-/

namespace TourPulse

/-- Python `str.split()` on a character list: splits on whitespace runs and
drops empty pieces (the accumulator holds the current word, reversed). -/
def wsSplitAux : List Char → List Char → List (List Char)
  | [], acc => if acc = [] then [] else [acc.reverse]
  | c :: cs, acc =>
    if c.isWhitespace then
      (if acc = [] then wsSplitAux cs [] else acc.reverse :: wsSplitAux cs [])
    else wsSplitAux cs (c :: acc)

/-- Tokenisation used by `calculate_sentiment_score`:
`review.lower().split()` — lowercase, then whitespace-split. -/
def pyTokens (s : String) : List String :=
  (wsSplitAux (s.data.map Char.toLower) []).map List.asString

/-- All tokens of all reviews, in order (the two nested `for` loops of the
source walk exactly this sequence). -/
def allTokens (reviews : List String) : List String :=
  (reviews.map pyTokens).flatten

/-- `positive_words` of `calculate_sentiment_score` (source lines 534-539). -/
def positiveWords : List String :=
  ["excellent", "amazing", "wonderful", "fantastic", "great", "good", "nice",
   "clean", "comfortable", "friendly", "helpful", "recommend", "perfect",
   "beautiful", "spacious", "convenient", "professional", "outstanding",
   "love", "loved", "enjoy", "enjoyed", "pleasant", "satisfied"]

/-- `negative_words` of `calculate_sentiment_score` (source lines 540-545). -/
def negativeWords : List String :=
  ["terrible", "awful", "bad", "worst", "horrible", "dirty", "uncomfortable",
   "rude", "unhelpful", "disappointing", "poor", "cheap", "noisy", "smelly",
   "broken", "outdated", "cramped", "overpriced", "hate", "hated", "annoying",
   "disgusting", "unacceptable", "nightmare", "avoid"]

/-- Contribution of one token: `+1` on the positive list, `-1` on the
negative list (the `if`/`elif` of source lines 553-556), else `0`. -/
def tokenVal (w : String) : Int :=
  if w ∈ positiveWords then 1 else if w ∈ negativeWords then -1 else 0

/-- `calculate_sentiment_score` (source lines 530-559): keyword sentiment over
all tokens of all reviews, normalised by the token count, scaled by 10 and
clamped to `[-1, 1]`; empty input (or zero tokens) yields `0`. -/
def calculate_sentiment_score (reviews : List String) : ℚ :=
  if reviews.isEmpty then 0
  else
    let words := allTokens reviews
    let wordCount := words.length
    let totalScore : Int := words.foldl
      (fun acc w =>
        if w ∈ positiveWords then acc + 1
        else if w ∈ negativeWords then acc - 1
        else acc) 0
    if wordCount = 0 then 0
    else max (-1 : ℚ) (min 1 ((totalScore : ℚ) / (wordCount : ℚ) * 10))

/-! ### Numeric normalisation (`extract_numeric_features`, source lines 561-577) -/

/-- Decimal value of a run of digit characters. -/
def digitsVal (ds : List Char) : Nat :=
  ds.foldl (fun n c => n * 10 + (c.toNat - 48)) 0

/-- First maximal run of digits in a character list (the first match of the
pattern `\d+`), if any. -/
def firstDigitRun : List Char → Option (List Char)
  | [] => none
  | c :: cs =>
    if c.isDigit then some ((c :: cs).takeWhile Char.isDigit)
    else firstDigitRun cs

/-- Python `s.replace(",", "")`: drop every comma. -/
def stripCommas (s : String) : List Char :=
  s.data.filter (fun c => c ≠ ',')

/-- `float(re.findall(r'[\d,]+', price.replace(',', ''))[0])` when a match
exists, else `None`: on a comma-free string the pattern `[\d,]+` matches
exactly the maximal digit runs. -/
def priceNumeric (price : String) : Option ℚ :=
  (firstDigitRun (stripCommas price)).map (fun ds => ((digitsVal ds : Nat) : ℚ))

/-- `int(re.findall(r'\d+', review_count.replace(',', ''))[0])` when a match
exists, else `None`. -/
def reviewCountNumeric (reviewCount : String) : Option Nat :=
  (firstDigitRun (stripCommas reviewCount)).map digitsVal

/-- First match of `re.findall(r'\d+\.?\d*', s)` converted by `float`:
a maximal digit run, optionally followed by one `.` and a (possibly empty)
digit run. -/
def ratingScan : List Char → Option ℚ
  | [] => none
  | c :: cs =>
    if c.isDigit then
      let intRun := (c :: cs).takeWhile Char.isDigit
      let rest := (c :: cs).dropWhile Char.isDigit
      match rest with
      | '.' :: rest2 =>
        -- the decimal value intRun.frac, i.e. intRun + frac / 10 ^ |frac|
        let frac := rest2.takeWhile Char.isDigit
        some (mkRat (Int.ofNat
          (digitsVal intRun * 10 ^ frac.length + digitsVal frac)) (10 ^ frac.length))
      | _ => some ((digitsVal intRun : ℚ))
    else ratingScan cs

/-- `float(re.findall(r'\d+\.?\d*', user_rating)[0])` when a match exists
(no comma stripping for the rating field), else `None`. -/
def ratingNumeric (userRating : String) : Option ℚ :=
  ratingScan userRating.data

/-- The reserved placeholder marker: backfilled entries read
`"No review available {i + 1}"` and placeholder detection is
`r.startswith("No review available")`. -/
def placeholderMarker : String := "No review available"

/-- Python `r.startswith(marker)`. -/
def startsWithStr (marker r : String) : Bool :=
  marker.data.isPrefixOf r.data

/-- The derived numeric block of `HotelData` filled in by
`extract_numeric_features`. -/
structure NumericFeatures where
  price_numeric : Option ℚ
  review_count_numeric : Option Nat
  rating_numeric : Option ℚ
  star_rating_numeric : Option Nat
  avg_sentiment_score : ℚ
deriving Repr, DecidableEq

/-- `extract_numeric_features` (source lines 561-577): pattern-based numeric
normalisation of the text fields plus the hotel-level sentiment score, which
is computed from the non-placeholder reviews only (source lines 572-574). -/
def extract_numeric_features (price reviewCount userRating starRating : String)
    (recentReviews : List String) : NumericFeatures :=
  { price_numeric := priceNumeric price
  , review_count_numeric := reviewCountNumeric reviewCount
  , rating_numeric := ratingNumeric userRating
  , star_rating_numeric := if starRating ≠ "" then some starRating.length else none
  , avg_sentiment_score := calculate_sentiment_score
      (recentReviews.filter (fun r => ! startsWithStr placeholderMarker r)) }

/-! ### Temporal derivation (`extract_temporal_features`, source lines 122-157) -/

/-- A calendar date (the `datetime.date` part of a Python `datetime`). -/
structure Date where
  year : Int
  month : Nat
  day : Nat
deriving Repr, DecidableEq

/-- An instant, as `datetime.now()` yields one: a date plus the seconds
elapsed since that date's midnight (`0` means exactly midnight; fractions of
a second only matter through being nonzero, so they are absorbed here). -/
structure Instant where
  date : Date
  secs : Nat
deriving Repr, DecidableEq

/-- Gregorian leap-year rule. -/
def isLeap (y : Int) : Bool :=
  (y % 4 == 0 && y % 100 != 0) || y % 400 == 0

/-- Days in a month, as `datetime` validates them. -/
def daysInMonth (y : Int) (m : Nat) : Nat :=
  if m = 2 then (if isLeap y then 29 else 28)
  else if m = 4 ∨ m = 6 ∨ m = 9 ∨ m = 11 then 30
  else 31

/-- Days since 1970-01-01 of a civil date (the standard era-based
algorithm; all divisions below have non-negative operands). -/
def daysFromCivil (y : Int) (m d : Nat) : Int :=
  let y' : Int := if m ≤ 2 then y - 1 else y
  let era : Int := (if 0 ≤ y' then y' else y' - 399) / 400
  let yoe : Int := y' - era * 400
  let mp : Int := if 2 < m then (m : Int) - 3 else (m : Int) + 9
  let doy : Int := (153 * mp + 2) / 5 + (d : Int) - 1
  let doe : Int := yoe * 365 + yoe / 4 - yoe / 100 + doy
  era * 146097 + doe - 719468

/-- `checkin_dt.strftime('%A')`: full weekday name of a day count
(1970-01-01, day 0, was a Thursday). -/
def weekdayName (days : Int) : String :=
  let w := (days + 4) % 7
  if w = 0 then "Sunday"
  else if w = 1 then "Monday"
  else if w = 2 then "Tuesday"
  else if w = 3 then "Wednesday"
  else if w = 4 then "Thursday"
  else if w = 5 then "Friday"
  else "Saturday"

/-- Zero-padded two-digit field of `strftime('%Y-%m-%d')`. -/
def pad2 (n : Nat) : String :=
  if n < 10 then "0" ++ toString n else toString n

/-- `strftime('%Y-%m-%d')`. -/
def fmtDate (d : Date) : String :=
  toString d.year ++ "-" ++ pad2 d.month ++ "-" ++ pad2 d.day

/-- `datetime.strptime(s, '%m%d%Y')` on the eight-character encoding the
site's URLs use (two-digit month, two-digit day, four-digit year, as in the
spec); an out-of-range month or day raises `ValueError`, i.e. yields
`none`. -/
def parseMMDDYYYY (s : String) : Option Date :=
  let cs := s.data
  if cs.length = 8 ∧ cs.all Char.isDigit then
    let m := digitsVal (cs.take 2)
    let d := digitsVal ((cs.drop 2).take 2)
    let y : Int := (digitsVal (cs.drop 4) : Nat)
    if 1 ≤ m ∧ m ≤ 12 ∧ 1 ≤ d ∧ d ≤ daysInMonth y m then some ⟨y, m, d⟩
    else none
  else none

/-- Split a character list at every occurrence of `sep`. -/
def splitOnChar (sep : Char) : List Char → List (List Char)
  | [] => [[]]
  | c :: cs =>
    let r := splitOnChar sep cs
    if c = sep then [] :: r
    else
      match r with
      | [] => [[c]]
      | h :: t => (c :: h) :: t

/-- `urlparse(url).query`: the part after the first `?` of the pre-fragment
portion of the URL (percent-decoding is omitted; the URLs in play contain
no percent escapes). -/
def urlQuery (url : String) : String :=
  let preFragment := ((splitOnChar '#' url.data).headD []).asString
  match splitOnChar '?' preFragment.data with
  | [] => ""
  | [_] => ""
  | _ :: rest => (String.intercalate "?" (rest.map List.asString))

/-- `parse_qs(query)`: `&`-separated `key=value` pairs; pairs without `=`
and pairs with an empty value are dropped (`keep_blank_values=False`). -/
def parseQS (q : String) : List (String × String) :=
  (splitOnChar '&' q.data).filterMap (fun pair =>
    match splitOnChar '=' pair with
    | [] => none
    | [_] => none
    | k :: rest =>
      let v := String.intercalate "=" (rest.map List.asString)
      if v = "" then none else some (k.asString, v))

/-- `params.get(key, [''])[0]`: first value recorded for `key`, or `""`. -/
def getParam (q key : String) : String :=
  match (parseQS q).filter (fun kv => kv.1 = key) with
  | [] => ""
  | kv :: _ => kv.2

/-- The tuple `extract_temporal_features` returns, with the source's local
variable names as field names. -/
structure TemporalFeatures where
  search_date : String
  checkin_date : String
  checkout_date : String
  days_ahead : Int
  day_of_week : String
  season : String
deriving Repr, DecidableEq

/-- Core of `extract_temporal_features` once the two query parameters are in
hand (source lines 129-153).  `days_ahead` is
`(checkin_dt - current_date).days`: `timedelta.days` floors, so a nonzero
time-of-day costs one day.  A `ValueError` from `strptime` lands in the
`except` branch (lines 154-157), which returns the same defaulted tuple. -/
def temporalFromParams (checkin checkout : String) (now : Instant) :
    TemporalFeatures :=
  let searchDate := fmtDate now.date
  if checkin ≠ "" ∧ checkout ≠ "" then
    match parseMMDDYYYY checkin, parseMMDDYYYY checkout with
    | some ci, some co =>
      let ciDays := daysFromCivil ci.year ci.month ci.day
      let nowDays := daysFromCivil now.date.year now.date.month now.date.day
      let daysAhead := Int.fdiv ((ciDays - nowDays) * 86400 - (now.secs : Int)) 86400
      let season :=
        if ci.month = 12 ∨ ci.month = 1 ∨ ci.month = 2 then "Winter"
        else if ci.month = 3 ∨ ci.month = 4 ∨ ci.month = 5 then "Spring"
        else if ci.month = 6 ∨ ci.month = 7 ∨ ci.month = 8 then "Summer"
        else "Autumn"
      ⟨searchDate, fmtDate ci, fmtDate co, daysAhead, weekdayName ciDays, season⟩
    | _, _ => ⟨searchDate, "", "", 0, "", ""⟩
  else ⟨searchDate, "", "", 0, "", ""⟩

/-- `extract_temporal_features` (source lines 122-157), with the ambient
`datetime.now()` made an explicit argument. -/
def extract_temporal_features (url : String) (now : Instant) : TemporalFeatures :=
  temporalFromParams (getParam (urlQuery url) "checkin")
    (getParam (urlQuery url) "checkout") now

/-- The listing URL of `main()` (source line 763), also the URL of the
spec's temporal scenario. -/
def mmtURL : String :=
  "https://www.makemytrip.com/hotels/hotel-listing/?checkin=08022025&city=CTCCU&checkout=08032025&roomStayQualifier=2e0e&locusId=CTCCU&country=IN&locusType=city&searchText=Kolkata"

/-! ### Review harvesting (`extract_hotel_reviews`, source lines 159-355)

The detail-page navigation of one listing row is embedded as a state machine
over an explicit browser-window state.  Each of the up-to-three navigation
attempts is described by an `AttemptEnv` record saying what the page offered
(a detail link, the page source inspected for CAPTCHA keywords, the reviews
the detail extraction would return) and at which statement, if any, an
exception is raised; the machine mirrors the `try`/`except` structure of the
source, including the exception handler of lines 319-327. -/

/-- Selenium window state: the open window handles in creation order (the
listing window is handle `0`) and the handle the driver currently drives. -/
structure BrowserState where
  tabs : List Nat
  current : Nat
  nextHandle : Nat
deriving Repr, DecidableEq

/-- `min_reviews = 5` (source line 166): the target excerpt count. -/
def minReviews : Nat := 5

/-- `valid_reviews` (source line 333): the collected excerpts that do not
begin with the reserved placeholder marker. -/
def validReviews (recent : List String) : List String :=
  recent.filter (fun r => ! startsWithStr placeholderMarker r)

/-- The placeholder texts appended when only `k` valid excerpts exist:
`"No review available {i + 1}"` for `i` from `k` to `4`
(source lines 336-338). -/
def placeholderTexts (k : Nat) : List String :=
  (List.range (minReviews - k)).map
    (fun j => placeholderMarker ++ " " ++ toString (k + j + 1))

/-- Result of the finalisation step (source lines 332-355). -/
structure FinalizeOut where
  finalReviews : List String
  placeholders : List String
  avgSentiment : ℚ
deriving Repr, DecidableEq

/-- Finalisation (source lines 332-355): compute the valid excerpts, append
placeholders while fewer than five are valid, compute the shared sentiment
score from the valid excerpts only, and return the first five entries. -/
def finalizeReviews (recent : List String) : FinalizeOut :=
  let valid := validReviews recent
  let ph := if valid.length < minReviews then placeholderTexts valid.length else []
  ⟨(recent ++ ph).take minReviews, ph, calculate_sentiment_score valid⟩

/-- The Chrome argument list assembled in `_setup_driver`
(source lines 104-116): headless mode contributes `"--headless=new"`. -/
def setupDriverArgs (headless : Bool) : List String :=
  ["--disable-gpu",
   "--disable-dev-shm-usage",
   "--disable-extensions",
   "--no-sandbox",
   "--disable-blink-features=AutomationControlled",
   "--user-agent=Mozilla/5.0 (Windows NT 10.0; Win64; x64) AppleWebKit/537.36 (KHTML, like Gecko) Chrome/126.0.0.0 Safari/537.36",
   "--window-size=1920,1080"] ++ (if headless then ["--headless=new"] else [])

/-- Substring test (Python `needle in hay`). -/
def containsStr (hay needle : String) : Bool :=
  go needle.data hay.data
where
  go (needle : List Char) : List Char → Bool
    | [] => needle.isEmpty
    | c :: cs => needle.isPrefixOf (c :: cs) || go needle cs

/-- The fixed CAPTCHA keyword set (source line 265). -/
def captchaKeywords : List String :=
  ["captcha", "verify you are not a robot", "recaptcha"]

/-- CAPTCHA detection: case-insensitive substring match of the keywords
against the page source (`page_source.lower()`, source lines 264-265). -/
def captchaDetected (pageSource : String) : Bool :=
  captchaKeywords.any (fun kw =>
    containsStr ((pageSource.data.map Char.toLower).asString) kw)

/-- Statements of one navigation attempt at which the exception oracle may
fire, mirroring the positions inside the `try` of source lines 225-318:
before `main_window` is bound (line 255), after it, after the new tab is
opened (line 258), after the driver switched to it (line 260), inside the
CAPTCHA check (whose own `except` at line 274 swallows the exception), and
during the detail work (tab navigation, scrolling, extraction,
lines 278-313). -/
inductive ExcP
  | beforeStore
  | afterStore
  | afterOpen
  | afterSwitch
  | inCaptchaCheck
  | inDetailWork
deriving Repr, DecidableEq

/-- Environment of one navigation attempt. -/
structure AttemptEnv where
  linkFound : Bool
  pageSource : String
  detailed : List String
  exc : Option ExcP
deriving Repr

/-- How one attempt ended: ran to completion, skipped by `continue` (no link
found, or the exception handler of lines 319-327 restored the listing
window), the early CAPTCHA `return` of line 273, or an exception escaping
the attempt loop (a `NameError` in the handler when `main_window` is still
unbound), to be caught by the outer `except` of line 329. -/
inductive AttemptExit
  | normal
  | skipped
  | earlyCaptcha
  | abortEscape
deriving Repr, DecidableEq

/-- State threaded through the attempt loop: the browser windows, the
`recent_reviews` accumulator, and the `main_window` variable (unbound until
line 255 first runs). -/
structure AttemptState where
  st : BrowserState
  recent : List String
  mainW : Option Nat
deriving Repr

/-- The exception handler of lines 321-323: if the driver is not on
`main_window`, close the current window and switch back. -/
def restoreWin (m : Nat) (st : BrowserState) : BrowserState :=
  if st.current ≠ m then { st with tabs := st.tabs.erase st.current, current := m }
  else st

/-- One attempt of the detail-page navigation (source lines 225-327). -/
def runAttempt (headless : Bool) (a : AttemptEnv) (s : AttemptState) :
    AttemptState × AttemptExit :=
  if a.exc = some .beforeStore then
    -- exception while resolving the link: the handler dereferences
    -- `main_window`, a NameError if it was never bound
    match s.mainW with
    | none => (s, .abortEscape)
    | some m => ({ s with st := restoreWin m s.st }, .skipped)
  else if ¬ a.linkFound then (s, .skipped)          -- `continue`, line 252
  else
    let m := s.st.current                           -- line 255
    let s := { s with mainW := some m }
    if a.exc = some .afterStore then ({ s with st := restoreWin m s.st }, .skipped)
    else
      let h := s.st.nextHandle                      -- `window.open`, line 258
      let st1 : BrowserState :=
        { tabs := s.st.tabs ++ [h], current := s.st.current, nextHandle := h + 1 }
      if a.exc = some .afterOpen then ({ s with st := restoreWin m st1 }, .skipped)
      else
        -- `switch_to.window(window_handles[-1])`, line 260
        let st2 : BrowserState := { st1 with current := st1.tabs.getLastD st1.current }
        if a.exc = some .afterSwitch then ({ s with st := restoreWin m st2 }, .skipped)
        else if a.exc ≠ some .inCaptchaCheck ∧ captchaDetected a.pageSource ∧
            (setupDriverArgs headless).count "--headless" ≠ 0 then
          -- the headless CAPTCHA abort of lines 270-273: close the tab,
          -- switch back, and return the reviews collected so far.  The
          -- guard counts the exact argument "--headless", which
          -- `_setup_driver` never registers (it adds "--headless=new"),
          -- so this branch is unreachable; in the interactive branch the
          -- code merely sleeps 30 s and falls through.
          ({ s with st := { st2 with tabs := st2.tabs.erase st2.current, current := m } },
            .earlyCaptcha)
        else if a.exc = some .inDetailWork then ({ s with st := restoreWin m st2 }, .skipped)
        else
          -- detail extraction (line 309): extend with the unseen reviews,
          -- then close the tab and switch back (lines 312-313)
          let recent' := s.recent ++ a.detailed.filter (fun r => ! s.recent.contains r)
          ({ st := { st2 with tabs := st2.tabs.erase st2.current, current := m }
           , recent := recent', mainW := some m }, .normal)

/-- The attempt loop (`for attempt in range(max_attempts)`, line 224; the
source fixes three attempts).  Returns the final state and whether the early
CAPTCHA `return` fired; a `normal` attempt that reached five reviews breaks
(line 315), an escaping exception ends the loop and is caught by the outer
`except` of line 329, after which finalisation still runs. -/
def runAttempts (headless : Bool) : List AttemptEnv → AttemptState → AttemptState × Bool
  | [], s => (s, false)
  | a :: rest, s =>
    let (s', e) := runAttempt headless a s
    match e with
    | .earlyCaptcha => (s', true)
    | .abortEscape => (s', false)
    | .normal =>
      if minReviews ≤ s'.recent.length then (s', false)
      else runAttempts headless rest s'
    | .skipped => runAttempts headless rest s'

/-- What `extract_hotel_reviews` produces, together with the observables the
claims speak about: the returned excerpt list, the raw `recent_reviews`
accumulator before truncation, the placeholders appended, the sentiment
computed at finalisation (`none` when the early CAPTCHA `return` skipped
finalisation), and the final window state. -/
structure HarvestOut where
  reviews : List String
  highlights : List String
  collected : List String
  placeholders : List String
  sentiment : Option ℚ
  finalState : BrowserState
  earlyCaptchaReturn : Bool
deriving Repr

/-- `extract_hotel_reviews` (source lines 159-355) for one listing row.
`inline` is the excerpt list the in-row collection (lines 170-194) produced
and `highlights` the tag list of lines 197-219; detail-page navigation runs
only when review scraping is enabled and fewer than five inline excerpts
exist (line 222). -/
def extract_hotel_reviews (headless scrapeReviews : Bool)
    (attempts : List AttemptEnv) (inline highlights : List String)
    (st : BrowserState) : HarvestOut :=
  let s0 : AttemptState := ⟨st, inline, none⟩
  let r :=
    if scrapeReviews ∧ inline.length < minReviews then runAttempts headless attempts s0
    else (s0, false)
  if r.2 then
    { reviews := r.1.recent, highlights := highlights, collected := r.1.recent
    , placeholders := [], sentiment := none, finalState := r.1.st
    , earlyCaptchaReturn := true }
  else
    let f := finalizeReviews r.1.recent
    { reviews := f.finalReviews, highlights := highlights, collected := r.1.recent
    , placeholders := f.placeholders, sentiment := some f.avgSentiment
    , finalState := r.1.st, earlyCaptchaReturn := false }

/-! ### Pipeline driver (`scrape_hotel_data`, source lines 579-674) -/

/-- What happens at one listing position: the row locator times out
(`TimeoutException` at line 597, which breaks the walk), a row-level
exception (caught and skipped at lines 668-670), or a finished record. -/
inductive RowOutcome (α : Type)
  | absent
  | rowError
  | ok (record : α)
deriving Repr

/-- The listing walk (`for i in range(max_hotels)`, lines 589-670): stop at
the first absent row, skip errored rows, collect the rest. -/
def walkRows {α : Type} (outcome : Nat → RowOutcome α) : Nat → Nat → List α
  | _, 0 => []
  | i, n + 1 =>
    match outcome i with
    | .absent => []
    | .rowError => walkRows outcome (i + 1) n
    | .ok r => r :: walkRows outcome (i + 1) n

/-- `scrape_hotel_data` (lines 579-674): load the page and walk the rows;
the outer `except` of lines 671-672 catches a page-load failure (which
precedes any collection) and the function returns `hotels_data` — whatever
was collected so far — instead of raising. -/
def scrape_hotel_data {α : Type} (pageLoadOk : Bool)
    (outcome : Nat → RowOutcome α) (maxHotels : Nat) : List α :=
  if pageLoadOk then walkRows outcome 0 maxHotels else []

/-- The literal `'â‚¹'` that appears in the source at line 618: the UTF-8
bytes of the rupee sign `"₹"` misdecoded as three Latin-1 characters
(file bytes `c3 a2 e2 80 9a c2 b9`). -/
def mojibakeRupee : String := "â‚¹"

/-- The price/currency step of `scrape_hotel_data` (source lines 617-622):
if the extracted price text starts with the (mojibake) rupee literal, strip
one character and set the currency to `"INR"`, else leave the text and an
empty currency. -/
def processPrice (price : String) : String × String :=
  if startsWithStr mojibakeRupee price then ((price.data.drop 1).asString, "INR")
  else (price, "")

/-! ### Helper lemmas -/

/-- The score accumulation loop of `calculate_sentiment_score` computes the
sum of the per-token values. -/
lemma foldl_tokenVal (l : List String) (n : Int) :
    l.foldl (fun acc w =>
      if w ∈ positiveWords then acc + 1
      else if w ∈ negativeWords then acc - 1
      else acc) n = n + (l.map tokenVal).sum := by
  induction l generalizing n with
  | nil => simp
  | cons w t ih =>
    simp only [List.foldl_cons, List.map_cons, List.sum_cons, ih, tokenVal]
    split_ifs <;> ring

/-- A token on the positive list contributes exactly `+1` (the `if` tests
the positive list first, so a hypothetical overlap would not matter). -/
lemma tokenVal_pos {w : String} (h : w ∈ positiveWords) : tokenVal w = 1 := by
  simp [tokenVal, h]

lemma sum_tokenVal_all_pos {l : List String} (h : ∀ w ∈ l, w ∈ positiveWords) :
    (l.map tokenVal).sum = l.length := by
  induction l with
  | nil => simp
  | cons w t ih =>
    simp only [List.map_cons, List.sum_cons, List.length_cons,
      tokenVal_pos (h w (by simp)), ih (fun x hx => h x (by simp [hx]))]
    omega

/-- No digit anywhere means the `\d+` scanner finds nothing. -/
lemma firstDigitRun_eq_none {cs : List Char} (h : ∀ c ∈ cs, c.isDigit = false) :
    firstDigitRun cs = none := by
  induction cs with
  | nil => rfl
  | cons c t ih =>
    simp only [firstDigitRun, h c (by simp)]
    exact ih (fun x hx => h x (by simp [hx]))

/-- No digit anywhere means the `\d+\.?\d*` scanner finds nothing. -/
lemma ratingScan_eq_none {cs : List Char} (h : ∀ c ∈ cs, c.isDigit = false) :
    ratingScan cs = none := by
  induction cs with
  | nil => rfl
  | cons c t ih =>
    simp only [ratingScan, h c (by simp)]
    exact ih (fun x hx => h x (by simp [hx]))

lemma stripCommas_subset {s : String} {c : Char} (h : c ∈ stripCommas s) :
    c ∈ s.data := (List.mem_filter.mp h).1

/-! ### Claim theorems -/

/-- C5: for every list of review-text strings, the sentiment score equals
the token-wise sum (+1 per positive-set token, −1 per negative-set token,
tokens lowercased and whitespace-split) divided by the total token count,
scaled by 10 and clamped to `[-1, 1]`; the empty input list yields exactly
`0`, and any single review consisting only of positive-set words scores
strictly greater than `0`. -/
theorem c5_sentiment_formula :
    calculate_sentiment_score [] = 0 ∧
    (∀ rs : List String, (allTokens rs).length ≠ 0 →
      calculate_sentiment_score rs =
        max (-1 : ℚ) (min 1
          ((((allTokens rs).map tokenVal).sum : ℚ) / ((allTokens rs).length : ℚ) * 10))) ∧
    (∀ r : String, pyTokens r ≠ [] →
      (∀ w ∈ pyTokens r, w ∈ positiveWords) →
      0 < calculate_sentiment_score [r]) := by
  refine ⟨rfl, ?_, ?_⟩
  · intro rs h
    have hrs : rs.isEmpty = false := by
      cases rs with
      | nil => simp [allTokens] at h
      | cons a t => rfl
    simp only [calculate_sentiment_score, hrs, Bool.false_eq_true, if_false,
      foldl_tokenVal, zero_add, h, if_neg h]
  · intro r hne hpos
    have htok : allTokens [r] = pyTokens r := by simp [allTokens]
    have hlen : (allTokens [r]).length ≠ 0 := by
      rw [htok]
      simpa using hne
    have hformula : calculate_sentiment_score [r] =
        max (-1 : ℚ) (min 1
          ((((allTokens [r]).map tokenVal).sum : ℚ) / ((allTokens [r]).length : ℚ) * 10)) := by
      simp only [calculate_sentiment_score, List.isEmpty_cons, Bool.false_eq_true, if_false,
        foldl_tokenVal, zero_add, hlen, if_neg hlen]
    rw [hformula, htok]
    have hsum : ((pyTokens r).map tokenVal).sum = (pyTokens r).length :=
      sum_tokenVal_all_pos hpos
    have hn : (0 : ℚ) < ((pyTokens r).length : ℚ) := by
      have : 0 < (pyTokens r).length := List.length_pos.mpr hne
      exact_mod_cast this
    rw [hsum]
    have hdiv : (((pyTokens r).length : Int) : ℚ) / ((pyTokens r).length : ℚ) = 1 := by
      rw [div_eq_one_iff_eq (ne_of_gt hn)]
      push_cast
      ring
    rw [hdiv]
    norm_num

/-- C5 witness: the formula conjunct at a concrete two-token input and the
strict-positivity conjunct at a concrete all-positive review. -/
theorem c5_witness :
    ((allTokens ["great view"]).length ≠ 0 ∧
      calculate_sentiment_score ["great view"] =
        max (-1 : ℚ) (min 1
          ((((allTokens ["great view"]).map tokenVal).sum : ℚ) /
            ((allTokens ["great view"]).length : ℚ) * 10))) ∧
    (pyTokens "Excellent wonderful" ≠ [] ∧
      (∀ w ∈ pyTokens "Excellent wonderful", w ∈ positiveWords) ∧
      0 < calculate_sentiment_score ["Excellent wonderful"]) :=
  ⟨⟨by decide, c5_sentiment_formula.2.1 ["great view"] (by decide)⟩,
   ⟨by decide, by decide,
    c5_sentiment_formula.2.2 "Excellent wonderful" (by decide) (by decide)⟩⟩

/-- C4: placeholder reviews are excluded from the hotel-level sentiment
computation.  At finalisation the score is computed from `valid_reviews`,
and `extract_numeric_features` computes the record's average sentiment from
exactly the excerpts that do not begin with the reserved marker: a record
holding valid excerpts followed by placeholder entries scores as the valid
excerpts alone. -/
theorem c4_sentiment_excludes_placeholders :
    (∀ recent : List String,
      (finalizeReviews recent).avgSentiment =
        calculate_sentiment_score (validReviews recent)) ∧
    (∀ (price rc ur sr : String) (vs ps : List String),
      (∀ v ∈ vs, startsWithStr placeholderMarker v = false) →
      (∀ p ∈ ps, startsWithStr placeholderMarker p = true) →
      (extract_numeric_features price rc ur sr (vs ++ ps)).avg_sentiment_score =
        calculate_sentiment_score vs) := by
  constructor
  · intro recent
    rfl
  · intro price rc ur sr vs ps hv hp
    have hfilter : (vs ++ ps).filter (fun r => ! startsWithStr placeholderMarker r) = vs := by
      rw [List.filter_append]
      have h1 : vs.filter (fun r => ! startsWithStr placeholderMarker r) = vs :=
        List.filter_eq_self.mpr (fun a ha => by simp [hv a ha])
      have h2 : ps.filter (fun r => ! startsWithStr placeholderMarker r) = [] :=
        List.filter_eq_nil_iff.mpr (fun a ha => by simp [hp a ha])
      rw [h1, h2, List.append_nil]
    simp only [extract_numeric_features, hfilter]

/-- C4 witness: the spec's own example — a record with 2 valid and 3
placeholder excerpts computes its sentiment from the 2 valid ones only. -/
theorem c4_witness :
    (∀ v ∈ ["The staff were friendly and the room was clean",
            "good breakfast with many options"],
        startsWithStr placeholderMarker v = false) ∧
    (∀ p ∈ placeholderTexts 2, startsWithStr placeholderMarker p = true) ∧
    (extract_numeric_features "₹5,499" "2,048 reviews" "4.3" "" (
        ["The staff were friendly and the room was clean",
         "good breakfast with many options"] ++ placeholderTexts 2)).avg_sentiment_score =
      calculate_sentiment_score
        ["The staff were friendly and the room was clean",
         "good breakfast with many options"] :=
  ⟨by decide, by decide,
   c4_sentiment_excludes_placeholders.2 "₹5,499" "2,048 reviews" "4.3" ""
     ["The staff were friendly and the room was clean",
      "good breakfast with many options"] (placeholderTexts 2)
     (by decide) (by decide)⟩

/-- C7: numeric normalisation extracts the value of the first digit run of
each text field ("1,234" → 1234, "2,048 reviews" → 2048, "4.3 out of 5" →
4.3), and a (ASCII) text field containing no digit yields an absent numeric
field — `none`, never zero. -/
theorem c7_numeric_normalization :
    (∀ rc ur sr rec,
      (extract_numeric_features "1,234" rc ur sr rec).price_numeric = some 1234) ∧
    (∀ p ur sr rec,
      (extract_numeric_features p "2,048 reviews" ur sr rec).review_count_numeric =
        some 2048) ∧
    (∀ p rc sr rec,
      (extract_numeric_features p rc "4.3 out of 5" sr rec).rating_numeric =
        some (43 / 10 : ℚ)) ∧
    (∀ s : String, (∀ c ∈ s.data, c.toNat < 128) → (∀ c ∈ s.data, c.isDigit = false) →
      ∀ sr rec,
        (extract_numeric_features s s s sr rec).price_numeric = none ∧
        (extract_numeric_features s s s sr rec).review_count_numeric = none ∧
        (extract_numeric_features s s s sr rec).rating_numeric = none) := by
  refine ⟨fun _ _ _ _ => rfl, fun _ _ _ _ => rfl,
    fun _ _ _ _ => show ratingNumeric "4.3 out of 5" = some (43 / 10 : ℚ) by
      have h : ratingNumeric "4.3 out of 5" = some (mkRat 43 10) := by decide
      rw [h, Rat.mkRat_eq_divInt, Rat.divInt_eq_div]
      norm_num, ?_⟩
  intro s _hascii hnod sr rec
  have hnone : firstDigitRun (stripCommas s) = none :=
    firstDigitRun_eq_none (fun c hc => hnod c (stripCommas_subset hc))
  refine ⟨?_, ?_, ?_⟩
  · simp [extract_numeric_features, priceNumeric, hnone]
  · simp [extract_numeric_features, reviewCountNumeric, hnone]
  · simp [extract_numeric_features, ratingNumeric, ratingScan_eq_none hnod]

/-- C7 witness: a digitless ASCII field yields `none` for all three numeric
fields. -/
theorem c7_witness :
    (∀ c ∈ ("no digits here" : String).data, c.toNat < 128) ∧
    (∀ c ∈ ("no digits here" : String).data, c.isDigit = false) ∧
    (extract_numeric_features "no digits here" "no digits here" "no digits here"
        "" []).price_numeric = none ∧
    (extract_numeric_features "no digits here" "no digits here" "no digits here"
        "" []).review_count_numeric = none ∧
    (extract_numeric_features "no digits here" "no digits here" "no digits here"
        "" []).rating_numeric = none :=
  ⟨by decide, by decide,
   (c7_numeric_normalization.2.2.2 "no digits here" (by decide) (by decide) "" [])⟩

/-- C8 (code bug): for the displayed price text `"₹5,499"` (a genuine
U+20B9 rupee sign) the assembled record's numeric price is `5499`, but the
currency stays `""`, not `"INR"`: the prefix the code tests is the
three-character mojibake literal `'â‚¹'`, which a real rupee sign never
matches — and even a text that does match it loses only one of the three
mojibake characters to `price[1:]`. -/
theorem c8_mojibake_currency :
    (processPrice "₹5,499").2 = "" ∧
    (processPrice "₹5,499").1 = "₹5,499" ∧
    (extract_numeric_features (processPrice "₹5,499").1 "" "" "" []).price_numeric =
      some 5499 ∧
    (processPrice (mojibakeRupee ++ "5,499")).2 = "INR" ∧
    (processPrice (mojibakeRupee ++ "5,499")).1 = "‚¹5,499" := by
  exact ⟨by decide, by decide, by decide, by decide, by decide⟩

/-- C9: when no listing row can be located at position 0 the walk stops
immediately and the driver returns the empty collection; when the page load
itself fails, the driver likewise returns what was collected so far — the
empty collection — instead of raising. -/
theorem c9_empty_collection :
    (∀ (α : Type) (outcome : Nat → RowOutcome α) (maxHotels : Nat),
      outcome 0 = .absent → scrape_hotel_data true outcome maxHotels = []) ∧
    (∀ (α : Type) (outcome : Nat → RowOutcome α) (maxHotels : Nat),
      scrape_hotel_data false outcome maxHotels = []) := by
  constructor
  · intro α outcome maxHotels h
    cases maxHotels with
    | zero => rfl
    | succ n =>
      show walkRows outcome 0 (n + 1) = []
      simp [walkRows, h]
  · intro α outcome maxHotels
    rfl

/-- C9 witness: a run whose very first row is absent yields the empty
collection. -/
theorem c9_witness :
    (fun _ : Nat => (RowOutcome.absent : RowOutcome Nat)) 0 = RowOutcome.absent ∧
    scrape_hotel_data true (fun _ : Nat => (RowOutcome.absent : RowOutcome Nat)) 50 =
      ([] : List Nat) :=
  ⟨rfl, c9_empty_collection.1 Nat (fun _ => RowOutcome.absent) 50 rfl⟩

/-! ### Lemmas about finalisation and the navigation state machine -/

lemma placeholderTexts_length (k : Nat) :
    (placeholderTexts k).length = minReviews - k := by
  simp [placeholderTexts]

lemma validReviews_length_le (recent : List String) :
    (validReviews recent).length ≤ recent.length :=
  List.length_filter_le _ _

lemma finalizeReviews_length (recent : List String) :
    (finalizeReviews recent).finalReviews.length = minReviews := by
  have hv := validReviews_length_le recent
  simp only [finalizeReviews, List.length_take, List.length_append]
  split_ifs with h
  · rw [placeholderTexts_length]
    simp only [minReviews] at *
    omega
  · simp only [List.length_nil, minReviews] at *
    omega

lemma finalizeReviews_placeholders_iff (recent : List String) :
    (finalizeReviews recent).placeholders ≠ [] ↔
      (validReviews recent).length < minReviews := by
  show (if (validReviews recent).length < minReviews
      then placeholderTexts (validReviews recent).length else []) ≠ [] ↔
    (validReviews recent).length < minReviews
  split_ifs with h
  · simp only [h, iff_true]
    rw [← List.length_pos, placeholderTexts_length]
    simp only [minReviews] at h ⊢
    omega
  · simp [h]

lemma finalizeReviews_getElem (recent : List String) (i : Nat)
    (h1 : i < recent.length) (h2 : i < minReviews) :
    (finalizeReviews recent).finalReviews[i]? = recent[i]? := by
  show ((recent ++ _).take minReviews)[i]? = recent[i]?
  rw [List.getElem?_take_of_lt h2, List.getElem?_append_left h1]

/-- `_setup_driver` never registers the exact argument `"--headless"`
(headless mode contributes `"--headless=new"`), so the count the CAPTCHA
branch inspects is always zero. -/
lemma count_headless_zero (headless : Bool) :
    (setupDriverArgs headless).count "--headless" = 0 := by
  cases headless <;> decide

lemma restoreWin_current (m : Nat) (st : BrowserState) :
    (restoreWin m st).current = m := by
  unfold restoreWin
  split_ifs with h
  · rfl
  · exact (not_not.mp h).symm ▸ rfl

/-- One attempt leaves the driver on the listing window and keeps
`main_window` either unbound or bound to the listing window. -/
lemma runAttempt_inv (headless : Bool) (a : AttemptEnv) (s : AttemptState)
    (h1 : s.st.current = 0) (h2 : s.mainW = none ∨ s.mainW = some 0) :
    (runAttempt headless a s).1.st.current = 0 ∧
      ((runAttempt headless a s).1.mainW = none ∨
        (runAttempt headless a s).1.mainW = some 0) := by
  unfold runAttempt
  rcases h2 with h2 | h2 <;>
    simp only [h2] <;>
    split_ifs <;>
    simp_all [restoreWin_current]

/-- No attempt ever exits through the early CAPTCHA `return`: its guard
requires a positive `"--headless"` count. -/
lemma runAttempt_not_early (headless : Bool) (a : AttemptEnv) (s : AttemptState) :
    (runAttempt headless a s).2 ≠ .earlyCaptcha := by
  unfold runAttempt
  rcases hm : s.mainW with _ | m <;>
    split_ifs <;>
    simp_all [count_headless_zero]

lemma runAttempts_inv (headless : Bool) (as : List AttemptEnv) (s : AttemptState)
    (h1 : s.st.current = 0) (h2 : s.mainW = none ∨ s.mainW = some 0) :
    (runAttempts headless as s).1.st.current = 0 := by
  induction as generalizing s with
  | nil => exact h1
  | cons a rest ih =>
    obtain ⟨ha1, ha2⟩ := runAttempt_inv headless a s h1 h2
    rcases hra : runAttempt headless a s with ⟨s', e⟩
    rw [hra] at ha1 ha2
    cases e with
    | normal =>
      simp only [runAttempts, hra]
      split_ifs
      · exact ha1
      · exact ih s' ha1 ha2
    | skipped =>
      simp only [runAttempts, hra]
      exact ih s' ha1 ha2
    | earlyCaptcha =>
      simp only [runAttempts, hra]
      exact ha1
    | abortEscape =>
      simp only [runAttempts, hra]
      exact ha1

lemma runAttempts_no_early (headless : Bool) (as : List AttemptEnv) (s : AttemptState) :
    (runAttempts headless as s).2 = false := by
  induction as generalizing s with
  | nil => rfl
  | cons a rest ih =>
    have hne := runAttempt_not_early headless a s
    rcases hra : runAttempt headless a s with ⟨s', e⟩
    rw [hra] at hne
    cases e with
    | normal =>
      simp only [runAttempts, hra]
      split_ifs
      · rfl
      · exact ih s'
    | skipped =>
      simp only [runAttempts, hra]
      exact ih s'
    | earlyCaptcha => exact absurd rfl hne
    | abortEscape =>
      simp only [runAttempts, hra]

/-- The `recent_reviews`/window state after the (possibly skipped) attempt
loop, just before finalisation. -/
def harvestAccum (headless scrapeReviews : Bool) (attempts : List AttemptEnv)
    (inline : List String) (st : BrowserState) : AttemptState :=
  (if scrapeReviews ∧ inline.length < minReviews
    then runAttempts headless attempts ⟨st, inline, none⟩
    else (⟨st, inline, none⟩, false)).1

/-- Because the early CAPTCHA `return` is unreachable, `extract_hotel_reviews`
always reaches finalisation. -/
lemma extract_hotel_reviews_eq (headless scrapeReviews : Bool)
    (attempts : List AttemptEnv) (inline highlights : List String)
    (st : BrowserState) :
    extract_hotel_reviews headless scrapeReviews attempts inline highlights st =
      { reviews := (finalizeReviews
          (harvestAccum headless scrapeReviews attempts inline st).recent).finalReviews
      , highlights := highlights
      , collected := (harvestAccum headless scrapeReviews attempts inline st).recent
      , placeholders := (finalizeReviews
          (harvestAccum headless scrapeReviews attempts inline st).recent).placeholders
      , sentiment := some (finalizeReviews
          (harvestAccum headless scrapeReviews attempts inline st).recent).avgSentiment
      , finalState := (harvestAccum headless scrapeReviews attempts inline st).st
      , earlyCaptchaReturn := false } := by
  unfold extract_hotel_reviews harvestAccum
  by_cases hc : scrapeReviews ∧ inline.length < minReviews
  · have h := runAttempts_no_early headless attempts ⟨st, inline, none⟩
    simp only [if_pos hc, h, Bool.false_eq_true, if_false]
  · simp only [if_neg hc]
    rfl

lemma harvestAccum_current (headless scrapeReviews : Bool)
    (attempts : List AttemptEnv) (inline : List String) (st : BrowserState)
    (h : st.current = 0) :
    (harvestAccum headless scrapeReviews attempts inline st).st.current = 0 := by
  unfold harvestAccum
  by_cases hc : scrapeReviews ∧ inline.length < minReviews
  · simp only [if_pos hc]
    exact runAttempts_inv headless attempts ⟨st, inline, none⟩ h (Or.inl rfl)
  · simp only [if_neg hc]
    exact h

/-- C1: for every harvesting outcome of one listing row, the finalised
excerpt list has length exactly 5; placeholders are appended exactly when
fewer than 5 valid (non-marker) excerpts were collected; and every collected
excerpt keeps its position in the final list, so placeholders never displace
collected excerpts.  (The only early exit of the harvester, the headless
CAPTCHA `return`, is unreachable — see `count_headless_zero` — so every
outcome finalises.) -/
theorem c1_finalized_review_length (headless scrapeReviews : Bool)
    (attempts : List AttemptEnv) (inline highlights : List String)
    (st : BrowserState) :
    (extract_hotel_reviews headless scrapeReviews attempts inline highlights
        st).reviews.length = minReviews ∧
    ((extract_hotel_reviews headless scrapeReviews attempts inline highlights
        st).placeholders ≠ [] ↔
      (validReviews (extract_hotel_reviews headless scrapeReviews attempts inline
        highlights st).collected).length < minReviews) ∧
    (∀ i : Nat,
      i < (extract_hotel_reviews headless scrapeReviews attempts inline highlights
        st).collected.length →
      i < minReviews →
      (extract_hotel_reviews headless scrapeReviews attempts inline highlights
        st).reviews[i]? =
        (extract_hotel_reviews headless scrapeReviews attempts inline highlights
          st).collected[i]?) := by
  rw [extract_hotel_reviews_eq]
  exact ⟨finalizeReviews_length _, finalizeReviews_placeholders_iff _,
    fun i hi h5 => finalizeReviews_getElem _ i hi h5⟩

/-- C1 witness: a concrete harvest with one collected excerpt. -/
theorem c1_witness :
    0 < (extract_hotel_reviews true true [] ["an inline review about the hotel"]
        [] ⟨[0], 0, 1⟩).collected.length ∧
    0 < minReviews ∧
    (extract_hotel_reviews true true [] ["an inline review about the hotel"]
        [] ⟨[0], 0, 1⟩).reviews[0]? =
      (extract_hotel_reviews true true [] ["an inline review about the hotel"]
        [] ⟨[0], 0, 1⟩).collected[0]? :=
  ⟨by decide, by decide,
   (c1_finalized_review_length true true [] ["an inline review about the hotel"]
      [] ⟨[0], 0, 1⟩).2.2 0 (by decide) (by decide)⟩

/-- C2: on every exit path of the detail-page navigation — success, no link
found, the CAPTCHA branch, or an exception raised at any modelled statement
of any attempt — the driver ends the row back on the original listing
window. -/
theorem c2_listing_context_restored (headless scrapeReviews : Bool)
    (attempts : List AttemptEnv) (inline highlights : List String)
    (st : BrowserState) (h : st.current = 0) :
    (extract_hotel_reviews headless scrapeReviews attempts inline highlights
      st).finalState.current = 0 := by
  rw [extract_hotel_reviews_eq]
  exact harvestAccum_current headless scrapeReviews attempts inline st h

/-- C2 witness: an attempt that throws mid-extraction still ends on the
listing window. -/
theorem c2_witness :
    (⟨[0], 0, 1⟩ : BrowserState).current = 0 ∧
    (extract_hotel_reviews true true
        [⟨true, "some page text", ["a review from the detail page"],
          some .inDetailWork⟩]
        [] [] ⟨[0], 0, 1⟩).finalState.current = 0 :=
  ⟨rfl,
   c2_listing_context_restored true true
     [⟨true, "some page text", ["a review from the detail page"],
       some .inDetailWork⟩]
     [] [] ⟨[0], 0, 1⟩ rfl⟩

/-- An attempt whose detail page carries a CAPTCHA challenge marker. -/
def captchaAttempt : AttemptEnv :=
  ⟨true, "Please verify you are not a robot before continuing",
    ["the room was spacious and the staff were helpful"], none⟩

/-- C3 (code bug): in a headless session with a CAPTCHA on the detail page,
harvesting is NOT aborted.  The abort branch tests
`options.args.count("--headless")`, but headless mode registers
`"--headless=new"`, so the count is 0, the code takes the "wait for manual
solve" branch, continues extraction (the detail review is collected), and
the row finalises normally — it never returns early with only the excerpts
collected before the CAPTCHA. -/
theorem c3_headless_captcha_not_aborted :
    (setupDriverArgs true).count "--headless" = 0 ∧
    captchaDetected captchaAttempt.pageSource = true ∧
    (extract_hotel_reviews true true [captchaAttempt, captchaAttempt,
        captchaAttempt] [] [] ⟨[0], 0, 1⟩).earlyCaptchaReturn = false ∧
    (extract_hotel_reviews true true [captchaAttempt, captchaAttempt,
        captchaAttempt] [] [] ⟨[0], 0, 1⟩).collected =
      ["the room was spacious and the staff were helpful"] ∧
    (extract_hotel_reviews true true [captchaAttempt, captchaAttempt,
        captchaAttempt] [] [] ⟨[0], 0, 1⟩).finalState.current = 0 := by
  exact ⟨by decide, by decide, by decide, by decide, by decide⟩

/-- A row's collected excerpts: five genuinely harvested reviews, one of
which happens to begin with the reserved marker text. -/
def c10collected : List String :=
  ["the location was excellent and close to everything",
   "breakfast was good with many options",
   "rooms were clean and comfortable",
   "No review available anywhere on the page matches this hotel",
   "would recommend this hotel to friends"]

/-- C10: placeholder detection is a pure text-prefix test.  Any collected
review beginning with the marker is excluded from the valid set (hence from
the sentiment input, which is exactly the valid set), and whenever that
leaves fewer than 5 valid excerpts the backfill appends placeholder entries
— as the concrete row shows, even though 5 genuine excerpts were
collected. -/
theorem c10_marker_prefix_treated_as_placeholder :
    (∀ (recent : List String) (r : String), r ∈ recent →
      startsWithStr placeholderMarker r = true →
      ¬ r ∈ validReviews recent ∧
      (finalizeReviews recent).avgSentiment =
        calculate_sentiment_score (validReviews recent) ∧
      ((validReviews recent).length < minReviews →
        (finalizeReviews recent).placeholders ≠ [])) ∧
    (c10collected.length = minReviews ∧
      (validReviews c10collected).length = 4 ∧
      (finalizeReviews c10collected).placeholders = ["No review available 5"]) := by
  constructor
  · intro recent r hmem hpre
    refine ⟨?_, rfl, ?_⟩
    · intro hval
      have hf := (List.mem_filter.mp hval).2
      rw [hpre] at hf
      simp at hf
    · intro h
      exact (finalizeReviews_placeholders_iff recent).mpr h
  · exact ⟨by decide, by decide, by decide⟩

/-- C10 witness: the marker-prefixed genuine review of the concrete row is
excluded and triggers a backfill placeholder. -/
theorem c10_witness :
    "No review available anywhere on the page matches this hotel" ∈ c10collected ∧
    startsWithStr placeholderMarker
      "No review available anywhere on the page matches this hotel" = true ∧
    (validReviews c10collected).length < minReviews ∧
    ¬ "No review available anywhere on the page matches this hotel" ∈
      validReviews c10collected ∧
    (finalizeReviews c10collected).placeholders ≠ [] :=
  ⟨by decide, by decide, by decide,
   (c10_marker_prefix_treated_as_placeholder.1 c10collected
      "No review available anywhere on the page matches this hotel"
      (by decide) (by decide)).1,
   (c10_marker_prefix_treated_as_placeholder.1 c10collected
      "No review available anywhere on the page matches this hotel"
      (by decide) (by decide)).2.2 (by decide)⟩

set_option maxRecDepth 100000

/-- C6 counterexample: with the current date 2025-07-01 — at noon of it —
the derivation returns a lead time of 31, not the 32 the claim states:
`(checkin_dt - datetime.now()).days` floors away the partial day whenever
the current instant is past midnight.  The other derived values match the
claim. -/
theorem c6_counterexample :
    (extract_temporal_features mmtURL ⟨⟨2025, 7, 1⟩, 43200⟩).days_ahead ≠ 32 ∧
    (extract_temporal_features mmtURL ⟨⟨2025, 7, 1⟩, 43200⟩).days_ahead = 31 ∧
    (extract_temporal_features mmtURL ⟨⟨2025, 7, 1⟩, 43200⟩).checkin_date =
      "2025-08-02" := by
  exact ⟨by decide, by decide, by decide⟩

/-- C6 (amended): for the scenario URL, at every instant of 2025-07-01 the
derivation returns check-in date "2025-08-02", weekday "Saturday" and season
"Summer"; the lead time is 32 only at exactly midnight and 31 at any later
instant of that date, because the `timedelta` day count floors partial
days. -/
theorem c6_amended_temporal_scenario (s : Nat) (hs : s < 86400) :
    extract_temporal_features mmtURL ⟨⟨2025, 7, 1⟩, s⟩ =
      ⟨"2025-07-01", "2025-08-02", "2025-08-03",
        if s = 0 then 32 else 31, "Saturday", "Summer"⟩ := by
  have h1 : getParam (urlQuery mmtURL) "checkin" = "08022025" := by decide
  have h2 : getParam (urlQuery mmtURL) "checkout" = "08032025" := by decide
  unfold extract_temporal_features
  rw [h1, h2]
  have hp1 : parseMMDDYYYY "08022025" = some ⟨2025, 8, 2⟩ := by decide
  have hp2 : parseMMDDYYYY "08032025" = some ⟨2025, 8, 3⟩ := by decide
  unfold temporalFromParams
  rw [hp1, hp2]
  simp only [ne_eq, reduceIte]
  rw [if_pos (by decide : ¬"08022025" = "" ∧ ¬"08032025" = "")]
  simp only [TemporalFeatures.mk.injEq]
  refine ⟨by decide, by decide, by decide, ?_, by decide, by decide⟩
  rw [show daysFromCivil 2025 8 2 = 20302 from by decide,
    show daysFromCivil 2025 7 1 = 20270 from by decide,
    Int.fdiv_eq_ediv _ (by norm_num)]
  rcases Nat.eq_zero_or_pos s with h | h
  · subst h
    decide
  · rw [if_neg (by omega)]
    omega

/-- C6 witness: the amended scenario at the midnight instant, where the lead
time is 32. -/
theorem c6_witness :
    (0 : Nat) < 86400 ∧
    extract_temporal_features mmtURL ⟨⟨2025, 7, 1⟩, 0⟩ =
      ⟨"2025-07-01", "2025-08-02", "2025-08-03",
        if (0 : Nat) = 0 then 32 else 31, "Saturday", "Summer"⟩ :=
  ⟨by decide, c6_amended_temporal_scenario 0 (by decide)⟩

end TourPulse
